import Mathlib

/-!
Shallow embedding of `server/auth/google/google.go` from the cashier
repository: the Google OAuth2 identity provider (`Config`, `New`, `Valid`,
`Revoke`, `StartSession`, `Exchange`, `Email`, `Username`).

Network effects are modelled by an explicit environment (`Env`, `RevokeEnv`,
`ExchangeEnv`) that records the outcome of each outbound call site, and the
external metrics collaborator is modelled by explicit `Metrics` state that
the effectful operations thread through.
-/

namespace Cashier

/-- Model of `golang.org/x/oauth2` `Token`.  `valid` records the result of the
library predicate `token.Valid()` (non-nil token, non-empty access token, not
expired). -/
structure Token where
  accessToken : String
  valid : Bool
deriving Repr, DecidableEq

/-- Model of the backend `Tokeninfo` response (`google.golang.org/api/oauth2/v2`):
the field `Valid` reads, its `Audience`. -/
structure Tokeninfo where
  audience : String
deriving Repr, DecidableEq

/-- Model of the backend `Userinfo` response: the fields the provider reads,
`Email` and `Hd` (hosted domain). -/
structure Userinfo where
  email : String
  hd : String
deriving Repr, DecidableEq

/-- Model of the `oauth2.Config` descriptor embedded in the provider. -/
structure OAuthConfig where
  clientID : String
  clientSecret : String
  redirectURL : String
  scopes : List String
deriving Repr, DecidableEq

/-- `Config` from google.go: the provider state.  The Go `whitelist` is a
`map[string]bool` used only for emptiness and membership tests; it is modelled
by the key list. -/
structure Config where
  config : OAuthConfig
  domain : String
  whitelist : List String
deriving Repr, DecidableEq

/-- Backend behaviour during one `Valid`/`Email` computation.  Each network
call site of google.go gets its own response field, because successive calls
are separate requests and may be answered differently:
`Email` constructs its own service and fetches userinfo; `Valid` constructs a
second service, fetches tokeninfo, then fetches userinfo again.
A `none`/`false` value models the Go call returning a non-nil error
(network failure, backend rejection, or a cancelled context). -/
structure Env where
  emailServiceOk : Bool
  emailUserinfo : Option Userinfo
  validServiceOk : Bool
  tokeninfo : Option Tokeninfo
  validUserinfo : Option Userinfo
deriving Repr, DecidableEq

/-- The external metrics collaborator: the two per-provider counters google.go
increments (`metrics.M.AuthValid` and `metrics.M.AuthExchange`, both with
label "google"). -/
structure Metrics where
  authValid : Nat
  authExchange : Nat
deriving Repr, DecidableEq

/-- `googleapi.UserinfoEmailScope`. -/
def userinfoEmailScope : String := "https://www.googleapis.com/auth/userinfo.email"

/-- `googleapi.UserinfoProfileScope`. -/
def userinfoProfileScope : String := "https://www.googleapis.com/auth/userinfo.profile"

/-- The `revokeURL` format-string constant of google.go. -/
def revokeURL : String := "https://accounts.google.com/o/oauth2/revoke?token=%s"

/-- The `name` constant of google.go. -/
def providerName : String := "google"

/-- `Config.Name`. -/
def Config.Name (_c : Config) : String := providerName

/-- Go map lookup `m[k]` on a `map[string]string`: the zero value `""` when the
key is absent.  Models `c.ProviderOpts["domain"]`. -/
def lookupOpt (opts : List (String × String)) (k : String) : String :=
  match opts.find? (fun p => p.fst == k) with
  | some p => p.snd
  | none => ""

/-- `config.Auth`: the fields of the configuration that `New` reads. -/
structure Auth where
  oauthClientID : String
  oauthClientSecret : String
  oauthCallbackURL : String
  providerOpts : List (String × String)
  usersWhitelist : List String
deriving Repr, DecidableEq

/-- `New` from google.go.  Builds the whitelist from `c.UsersWhitelist` (a
`map[string]bool` whose emptiness coincides with the list's) and fails when
both the "domain" provider option and the whitelist are empty.  The
construction is pure: it takes no environment and performs no network call. -/
def New (c : Auth) : Except String Config :=
  let uw := c.usersWhitelist
  if lookupOpt c.providerOpts "domain" == "" && uw.isEmpty then
    .error "either Google Apps domain or users whitelist must be specified"
  else
    .ok {
      config := {
        clientID := c.oauthClientID
        clientSecret := c.oauthClientSecret
        redirectURL := c.oauthCallbackURL
        scopes := [userinfoEmailScope, userinfoProfileScope]
      }
      domain := lookupOpt c.providerOpts "domain"
      whitelist := uw
    }

/-- `Config.Email` from google.go: build a service (may fail), fetch userinfo
(may fail), return its `Email`; every failure degrades to `""`. -/
def Config.Email (_c : Config) (env : Env) (_token : Token) : String :=
  if !env.emailServiceOk then ""
  else
    match env.emailUserinfo with
    | none => ""
    | some ui => ui.email

/-- `Config.Valid` from google.go, threading the metrics state.  Returns the
boolean answer and the metrics after the call.  The structure mirrors the Go
source line by line: whitelist test (which calls `Email`), `token.Valid()`,
service construction, tokeninfo fetch, audience comparison, userinfo fetch,
domain comparison, counter increment. -/
def Config.Valid (c : Config) (env : Env) (token : Token) (m : Metrics) :
    Bool × Metrics :=
  if (c.whitelist.length != 0) && !(c.whitelist.contains (c.Email env token)) then
    (false, m)
  else if !token.valid then
    (false, m)
  else if !env.validServiceOk then
    (false, m)
  else
    match env.tokeninfo with
    | none => (false, m)
    | some ti =>
      if ti.audience != c.config.clientID then
        (false, m)
      else
        match env.validUserinfo with
        | none => (false, m)
        | some ui =>
          if c.domain != "" && ui.hd != c.domain then
            (false, m)
          else
            (true, { m with authValid := m.authValid + 1 })

/-- The HTTP response `client.Do` may deliver: google.go reads nothing of it
but its body handle; the status code records what the backend reported. -/
structure HTTPResponse where
  statusCode : Nat
deriving Repr, DecidableEq

/-- Outcomes of the two fallible steps of `Revoke`:
`http.NewRequestWithContext` and `client.Do`. -/
structure RevokeEnv where
  newRequestErr : Option String
  doResult : Except String HTTPResponse
deriving Repr

/-- `Config.Revoke` from google.go.  Returns `some err` for a non-nil Go error
and `none` for a nil one.  It propagates a request-construction error and a
transport error from `client.Do`, then closes the body and returns nil — the
response's status code is never inspected. -/
def Config.Revoke (_c : Config) (env : RevokeEnv) (_token : Token) : Option String :=
  match env.newRequestErr with
  | some e => some e
  | none =>
    match env.doResult with
    | .error e => some e
    | .ok _resp => none

/-- Model of `oauth2.Config.AuthCodeURL` as the list of query parameters the
library attaches to the authorization endpoint, in the order the library sets
them: `response_type`, `client_id`, then `redirect_uri` / `scope` / `state`
when non-empty, and finally the caller-supplied `AuthCodeOption` parameters
(here produced by `oauth2.SetAuthURLParam`). -/
def OAuthConfig.authCodeURL (cfg : OAuthConfig) (state : String)
    (opts : List (String × String)) : List (String × String) :=
  [("response_type", "code"), ("client_id", cfg.clientID)]
    ++ (if cfg.redirectURL != "" then [("redirect_uri", cfg.redirectURL)] else [])
    ++ (if !cfg.scopes.isEmpty then [("scope", String.intercalate " " cfg.scopes)] else [])
    ++ (if state != "" then [("state", state)] else [])
    ++ opts

/-- `Config.StartSession` from google.go: the authorization URL with the extra
parameter `SetAuthURLParam("hd", c.domain)`, passed unconditionally. -/
def Config.StartSession (c : Config) (state : String) : List (String × String) :=
  c.config.authCodeURL state [("hd", c.domain)]

/-- Outcome of the `oauth2.Config.Exchange` network call. -/
structure ExchangeEnv where
  result : Except String Token
deriving Repr

/-- `Config.Exchange` from google.go, threading the metrics state: perform the
code-for-token exchange; when the error is nil, increment the per-provider
exchange counter; return the token and error unchanged. -/
def Config.Exchange (_c : Config) (env : ExchangeEnv) (_code : String)
    (m : Metrics) : Except String Token × Metrics :=
  match env.result with
  | .ok t => (.ok t, { m with authExchange := m.authExchange + 1 })
  | .error e => (.error e, m)

/-- Model of Go `strings.Split` restricted to a single-character separator,
over the character list of the string: returns the (always non-empty) list of
chunks between occurrences of the separator. -/
def goSplit (sep : Char) : List Char → List (List Char)
  | [] => [[]]
  | ch :: rest =>
    if ch = sep then [] :: goSplit sep rest
    else
      match goSplit sep rest with
      | [] => [[ch]]
      | x :: xs => (ch :: x) :: xs

/-- `Config.Username` from google.go:
`strings.Split(c.Email(ctx, token), "@")[0]`. -/
def Config.Username (c : Config) (env : Env) (token : Token) : String :=
  String.mk ((goSplit '@' (c.Email env token).data).headD [])

/-! Spec-side decomposition of the checks `Valid` is claimed to perform, used
to compare the implementation against the claimed check order. -/

/-- Claimed check (1): whitelist membership of the derived identity, only when
a whitelist is configured and non-empty. -/
def checkWhitelist (c : Config) (env : Env) (token : Token) : Bool :=
  (c.whitelist.length == 0) || c.whitelist.contains (c.Email env token)

/-- Claimed check (3): server-side re-confirmation — the service is
constructed and the backend answers the tokeninfo request. -/
def checkReconfirm (env : Env) : Bool :=
  env.validServiceOk && env.tokeninfo.isSome

/-- Claimed check (4): the re-confirmed token's audience equals the provider's
configured client id. -/
def checkAudience (c : Config) (env : Env) : Bool :=
  match env.tokeninfo with
  | some ti => ti.audience == c.config.clientID
  | none => false

/-- The check the claimed list omits: the userinfo fetch inside `Valid` must
succeed, unconditionally. -/
def checkUserinfoFetch (env : Env) : Bool :=
  env.validUserinfo.isSome

/-- Claimed check (5): backend-reported domain equals the configured one, only
when a domain is configured. -/
def checkDomain (c : Config) (env : Env) : Bool :=
  (c.domain == "") ||
    (match env.validUserinfo with
     | some ui => ui.hd == c.domain
     | none => false)

/-! Concrete instances used to exercise the theorems. -/

/-- Metrics state with both counters at zero. -/
def m0 : Metrics := { authValid := 0, authExchange := 0 }

/-- A locally valid token. -/
def tokOk : Token := { accessToken := "at", valid := true }

/-- A userinfo whose email is whitelisted in `cfgWlDomain` but whose hosted
domain differs from that provider's configured domain. -/
def uiMismatch : Userinfo := { email := "alice@other.com", hd := "other.com" }

/-- A provider configured with both a whitelist and a domain. -/
def cfgWlDomain : Config :=
  { config := { clientID := "cid", clientSecret := "sec", redirectURL := "cb",
                scopes := [userinfoEmailScope, userinfoProfileScope] },
    domain := "example.com",
    whitelist := ["alice@other.com"] }

/-- Backend answers for `cfgWlDomain`: every call succeeds, the audience
matches, and the reported domain is `other.com`. -/
def envWlDomain : Env :=
  { emailServiceOk := true, emailUserinfo := some uiMismatch,
    validServiceOk := true, tokeninfo := some { audience := "cid" },
    validUserinfo := some uiMismatch }

/-- A provider configured with a whitelist only (empty domain option). -/
def cfgWlOnly : Config :=
  { config := { clientID := "cid", clientSecret := "sec", redirectURL := "cb",
                scopes := [userinfoEmailScope, userinfoProfileScope] },
    domain := "",
    whitelist := ["a@b.c"] }

/-- The whitelisted identity of `cfgWlOnly`. -/
def uiMember : Userinfo := { email := "a@b.c", hd := "b.c" }

/-- Backend answers where everything succeeds except the userinfo fetch made
inside `Valid` (the one made inside `Email` succeeds). -/
def envUserinfoFail : Env :=
  { emailServiceOk := true, emailUserinfo := some uiMember,
    validServiceOk := true, tokeninfo := some { audience := "cid" },
    validUserinfo := none }

/-- Backend answers where every call succeeds and the audience matches. -/
def envAllOk : Env :=
  { emailServiceOk := true, emailUserinfo := some uiMember,
    validServiceOk := true, tokeninfo := some { audience := "cid" },
    validUserinfo := some uiMember }

/-- Backend answers for an identity that is not whitelisted. -/
def envNonMember : Env :=
  { emailServiceOk := true, emailUserinfo := some { email := "mallory@evil.example", hd := "evil.example" },
    validServiceOk := true, tokeninfo := some { audience := "cid" },
    validUserinfo := some { email := "mallory@evil.example", hd := "evil.example" } }

/-- Backend answers whose tokeninfo audience is a foreign client id. -/
def envBadAudience : Env :=
  { emailServiceOk := true, emailUserinfo := some uiMember,
    validServiceOk := true, tokeninfo := some { audience := "some-other-app" },
    validUserinfo := some uiMember }

/-- Backend answers where the tokeninfo request fails. -/
def envTokeninfoFail : Env :=
  { emailServiceOk := true, emailUserinfo := some uiMember,
    validServiceOk := true, tokeninfo := none,
    validUserinfo := some uiMember }

/-- Backend answers whose userinfo email is `alice@example.com`. -/
def envAlice : Env :=
  { emailServiceOk := true,
    emailUserinfo := some { email := "alice@example.com", hd := "example.com" },
    validServiceOk := true, tokeninfo := some { audience := "cid" },
    validUserinfo := some { email := "alice@example.com", hd := "example.com" } }

/-- Backend answers whose userinfo email contains no separator character. -/
def envNoSep : Env :=
  { emailServiceOk := true, emailUserinfo := some { email := "alice", hd := "" },
    validServiceOk := true, tokeninfo := some { audience := "cid" },
    validUserinfo := some { email := "alice", hd := "" } }

/-- A revocation run whose HTTP round-trip completes but whose response
carries a backend-reported failure status. -/
def envRevoke400 : RevokeEnv :=
  { newRequestErr := none, doResult := .ok { statusCode := 400 } }

/-- A successful code-for-token exchange outcome. -/
def exEnvOk : ExchangeEnv := { result := .ok tokOk }

/-- A failed code-for-token exchange outcome. -/
def exEnvErr : ExchangeEnv := { result := .error "oauth2: cannot fetch token" }

/-! ### Helper lemmas -/

/-- `goSplit` never returns the empty list, so indexing its first element is
always safe. -/
theorem goSplit_ne_nil (sep : Char) (s : List Char) : goSplit sep s ≠ [] := by
  induction s with
  | nil => simp [goSplit]
  | cons ch rest ih =>
    unfold goSplit
    by_cases h : ch = sep
    · simp [h]
    · simp only [h, if_false]
      cases hg : goSplit sep rest with
      | nil => simp
      | cons x xs => simp

/-- The first chunk produced by `goSplit` is the longest prefix free of the
separator. -/
theorem goSplit_headD (sep : Char) (s : List Char) :
    (goSplit sep s).headD [] = s.takeWhile (fun ch => ch != sep) := by
  induction s with
  | nil => simp [goSplit]
  | cons ch rest ih =>
    unfold goSplit
    by_cases h : ch = sep
    · simp [h]
    · cases hg : goSplit sep rest with
      | nil => exact absurd hg (goSplit_ne_nil sep rest)
      | cons x xs =>
        rw [hg] at ih
        simp only [h, if_false, hg, List.headD_cons, List.takeWhile_cons] at ih ⊢
        have hb : (ch != sep) = true := by simpa using h
        simp [hb, ih]

/-- `takeWhile` is the identity on lists all of whose elements satisfy the
predicate. -/
theorem takeWhile_eq_self_of_forall (p : α → Bool) (l : List α)
    (h : ∀ x ∈ l, p x = true) : l.takeWhile p = l := by
  induction l with
  | nil => rfl
  | cons a rest ih =>
    rw [List.takeWhile_cons, if_pos (h a (by simp))]
    rw [ih (fun x hx => h x (by simp [hx]))]

/-- Rebuilding a string from its character list is the identity. -/
theorem string_mk_data (s : String) : String.mk s.data = s := rfl

/-- Characterization of the boolean `Valid` computes, as the short-circuit
conjunction, in source order, of the whitelist check, the local validity
check, the backend re-confirmation, the audience check, the (unconditional)
userinfo fetch and the domain check. -/
theorem Valid_fst_eq (c : Config) (env : Env) (t : Token) (m : Metrics) :
    (c.Valid env t m).fst =
      (checkWhitelist c env t &&
        (t.valid &&
          (checkReconfirm env &&
            (checkAudience c env &&
              (checkUserinfoFetch env && checkDomain c env))))) := by
  unfold Config.Valid checkWhitelist checkReconfirm checkAudience
    checkUserinfoFetch checkDomain
  cases hti : env.tokeninfo with
  | none =>
    cases hwl : c.whitelist.length == 0 <;>
      cases hmem : c.whitelist.contains (c.Email env t) <;>
        cases hv : t.valid <;> cases hsvc : env.validServiceOk <;>
          simp_all [bne]
  | some ti =>
    cases hui : env.validUserinfo with
    | none =>
      cases hwl : c.whitelist.length == 0 <;>
        cases hmem : c.whitelist.contains (c.Email env t) <;>
          cases hv : t.valid <;> cases hsvc : env.validServiceOk <;>
            cases haud : ti.audience == c.config.clientID <;>
              simp_all [bne]
    | some ui =>
      cases hwl : c.whitelist.length == 0 <;>
        cases hmem : c.whitelist.contains (c.Email env t) <;>
          cases hv : t.valid <;> cases hsvc : env.validServiceOk <;>
            cases haud : ti.audience == c.config.clientID <;>
              cases hdom : c.domain == "" <;>
                cases hhd : ui.hd == c.domain <;>
                  simp_all [bne]

/-- The metrics state after `Valid`: the validation counter is bumped exactly
when the boolean answer is `true`; nothing else changes. -/
theorem Valid_snd_eq (c : Config) (env : Env) (t : Token) (m : Metrics) :
    (c.Valid env t m).snd =
      (if (c.Valid env t m).fst then { m with authValid := m.authValid + 1 } else m) := by
  unfold Config.Valid
  cases hti : env.tokeninfo with
  | none =>
    cases hwl : (c.whitelist.length != 0) && !(c.whitelist.contains (c.Email env t)) <;>
      cases hv : t.valid <;> cases hsvc : env.validServiceOk <;> simp_all
  | some ti =>
    cases hui : env.validUserinfo with
    | none =>
      cases hwl : (c.whitelist.length != 0) && !(c.whitelist.contains (c.Email env t)) <;>
        cases hv : t.valid <;> cases hsvc : env.validServiceOk <;>
          cases haud : ti.audience != c.config.clientID <;> simp_all
    | some ui =>
      cases hwl : (c.whitelist.length != 0) && !(c.whitelist.contains (c.Email env t)) <;>
        cases hv : t.valid <;> cases hsvc : env.validServiceOk <;>
          cases haud : ti.audience != c.config.clientID <;>
            cases hdom : c.domain != "" && ui.hd != c.domain <;> simp_all <;>
              (try (split <;> simp_all))

/-! ### Claim theorems -/

/-- Claim C1, counterexample: a provider configured with both a whitelist and
a domain, a token whose derived identity is whitelisted and which passes the
expiry, backend re-confirmation and audience checks, but whose
backend-reported domain differs from the configured one — `Valid` returns
`false`, where the claim asserts it returns `true` (domain not consulted). -/
theorem C1_counterexample :
    cfgWlDomain.whitelist ≠ [] ∧
    cfgWlDomain.whitelist.contains (cfgWlDomain.Email envWlDomain tokOk) = true ∧
    tokOk.valid = true ∧
    envWlDomain.validServiceOk = true ∧
    envWlDomain.tokeninfo = some { audience := "cid" } ∧
    Tokeninfo.audience { audience := "cid" } = cfgWlDomain.config.clientID ∧
    envWlDomain.validUserinfo = some uiMismatch ∧
    uiMismatch.hd ≠ cfgWlDomain.domain ∧
    (cfgWlDomain.Valid envWlDomain tokOk m0).fst = false := by
  refine ⟨by decide, by decide, rfl, rfl, rfl, rfl, rfl, by decide, by decide⟩

/-- Claim C1 (amended): for a provider with a non-empty whitelist, `Valid`
returns `false` for any identity not in the whitelist; but the domain option,
when configured, is still consulted — a whitelisted email whose
backend-reported domain mismatches the configured domain yields `false`.
Only when the domain option is empty does a whitelisted identity that passes
the expiry, re-confirmation and audience checks (with the userinfo fetch
succeeding) yield `true`. -/
theorem C1_whitelist_domain (c : Config) (env : Env) (t : Token) (m : Metrics)
    (ti : Tokeninfo) (ui : Userinfo) (hw : c.whitelist ≠ []) :
    (c.whitelist.contains (c.Email env t) = false → (c.Valid env t m).fst = false) ∧
    (env.validUserinfo = some ui → c.domain ≠ "" → ui.hd ≠ c.domain →
      (c.Valid env t m).fst = false) ∧
    (c.domain = "" → c.whitelist.contains (c.Email env t) = true → t.valid = true →
      env.validServiceOk = true → env.tokeninfo = some ti →
      ti.audience = c.config.clientID → env.validUserinfo = some ui →
      (c.Valid env t m).fst = true) := by
  have hlen : (c.whitelist.length == 0) = false := by
    simp only [beq_eq_false_iff_ne, ne_eq, List.length_eq_zero]
    exact hw
  refine ⟨fun hmem => ?_, fun hui hdom hhd => ?_, ?_⟩
  · rw [Valid_fst_eq]
    unfold checkWhitelist
    rw [hlen, hmem]
    simp
  · rw [Valid_fst_eq]
    unfold checkDomain
    rw [hui]
    have h1 : (c.domain == "") = false := by simpa using hdom
    have h2 : (ui.hd == c.domain) = false := by simpa using hhd
    simp [h1, h2]
  · intro hdom hmem hv hsvc hti haud hui
    rw [Valid_fst_eq]
    unfold checkWhitelist checkReconfirm checkAudience checkUserinfoFetch checkDomain
    rw [hmem, hv, hsvc, hti, hui]
    simp [haud, hdom]

/-- Claim C1, witness: the amended theorem applied at concrete inputs — a
non-member is rejected; a whitelisted member with a mismatched backend domain
is rejected when a domain is configured; a whitelisted member is accepted by
a whitelist-only provider. -/
theorem C1_whitelist_domain_witness :
    (cfgWlOnly.Valid envNonMember tokOk m0).fst = false ∧
    (cfgWlDomain.Valid envWlDomain tokOk m0).fst = false ∧
    (cfgWlOnly.Valid envAllOk tokOk m0).fst = true :=
  ⟨(C1_whitelist_domain cfgWlOnly envNonMember tokOk m0
      { audience := "cid" } uiMember (by decide)).1 (by decide),
   (C1_whitelist_domain cfgWlDomain envWlDomain tokOk m0
      { audience := "cid" } uiMismatch (by decide)).2.1 rfl (by decide) (by decide),
   (C1_whitelist_domain cfgWlOnly envAllOk tokOk m0
      { audience := "cid" } uiMember (by decide)).2.2 rfl (by decide) rfl rfl rfl rfl rfl⟩

/-- Claim C2, counterexample: with a whitelist-only provider, an input on
which all five claimed checks pass — whitelist membership, local validity,
backend re-confirmation, audience equality, and the domain check vacuous
because no domain is configured — yet `Valid` returns `false`, because the
userinfo fetch inside `Valid` (a sixth, unlisted failure point, performed
even when no domain is configured) fails. -/
theorem C2_counterexample :
    checkWhitelist cfgWlOnly envUserinfoFail tokOk = true ∧
    tokOk.valid = true ∧
    checkReconfirm envUserinfoFail = true ∧
    checkAudience cfgWlOnly envUserinfoFail = true ∧
    cfgWlOnly.domain = "" ∧
    (cfgWlOnly.Valid envUserinfoFail tokOk m0).fst = false := by
  refine ⟨by decide, rfl, rfl, by decide, rfl, by decide⟩

/-- Claim C2 (amended): `Valid` is the short-circuit conjunction, in this
order, of: (1) whitelist membership of the derived identity when a whitelist
is configured and non-empty, (2) local token validity, (3) backend
re-confirmation (service construction and tokeninfo fetch), (4) audience
equality with the configured client id, (4') success of the userinfo fetch —
performed unconditionally, even when no domain is configured — and (5) domain
equality when a domain is configured; it returns `true` exactly when all of
them pass. -/
theorem C2_check_order (c : Config) (env : Env) (t : Token) (m : Metrics) :
    (c.Valid env t m).fst =
      (checkWhitelist c env t &&
        (t.valid &&
          (checkReconfirm env &&
            (checkAudience c env &&
              (checkUserinfoFetch env && checkDomain c env))))) :=
  Valid_fst_eq c env t m

/-- Claim C3: whenever the backend-reported tokeninfo audience differs from
the provider's configured client id, `Valid` returns `false`, whatever the
rest of the input. -/
theorem C3_audience_mismatch (c : Config) (env : Env) (t : Token) (m : Metrics)
    (ti : Tokeninfo) (hti : env.tokeninfo = some ti)
    (haud : ti.audience ≠ c.config.clientID) :
    (c.Valid env t m).fst = false := by
  rw [Valid_fst_eq]
  have h : (ti.audience == c.config.clientID) = false := by simpa using haud
  simp [checkAudience, hti, h]

/-- Claim C3, witness: a token whose tokeninfo audience names a foreign
application is rejected even though it is unexpired, whitelisted and
otherwise well-formed. -/
theorem C3_audience_mismatch_witness :
    (cfgWlOnly.Valid envBadAudience tokOk m0).fst = false :=
  C3_audience_mismatch cfgWlOnly envBadAudience tokOk m0
    { audience := "some-other-app" } rfl (by decide)

/-- Claim C5: `Valid` fails closed — it is a total boolean function, and any
error during backend re-confirmation (service construction or tokeninfo
fetch) or userinfo retrieval, including those produced by a cancelled
context, makes it return `false`, never `true`. -/
theorem C5_fail_closed (c : Config) (env : Env) (t : Token) (m : Metrics)
    (h : env.validServiceOk = false ∨ env.tokeninfo = none ∨
      env.validUserinfo = none) :
    (c.Valid env t m).fst = false := by
  rw [Valid_fst_eq]
  rcases h with h | h | h
  · simp [checkReconfirm, h]
  · simp [checkReconfirm, h]
  · simp [checkUserinfoFetch, h]

/-- Claim C5, witness: a failing tokeninfo request collapses `Valid` to
`false` even for a whitelisted, locally valid token. -/
theorem C5_fail_closed_witness :
    (cfgWlOnly.Valid envTokeninfoFail tokOk m0).fst = false :=
  C5_fail_closed cfgWlOnly envTokeninfoFail tokOk m0 (Or.inr (Or.inl rfl))

/-- Claim C4: `New` fails exactly when both the "domain" provider option and
the users whitelist are empty; with at least one of them non-empty it returns
a provider.  The construction is pure (it consumes no environment), so it
performs no network I/O. -/
theorem C4_new_requires_constraint (a : Auth) :
    (∃ e, New a = Except.error e) ↔
      (lookupOpt a.providerOpts "domain" = "" ∧ a.usersWhitelist = []) := by
  simp only [New]
  split
  next h =>
    simp only [Bool.and_eq_true, beq_iff_eq] at h
    obtain ⟨h1, h2⟩ := h
    have h3 : a.usersWhitelist = [] := by simpa using h2
    simp [h1, h3]
  next h =>
    constructor
    · rintro ⟨e, he⟩
      exact Except.noConfusion he
    · rintro ⟨h1, h2⟩
      exact (h (by simp [h1, h2])).elim

/-- Claim C6, counterexample: a revocation whose HTTP round-trip completes
with a backend-reported failure status (400) — `Revoke` returns no error,
where the claim asserts a backend-reported failure yields a non-nil
`RevokeError`. -/
theorem C6_counterexample :
    envRevoke400.newRequestErr = none ∧
    envRevoke400.doResult = Except.ok { statusCode := 400 } ∧
    cfgWlOnly.Revoke envRevoke400 tokOk = none :=
  ⟨rfl, rfl, rfl⟩

/-- Claim C6 (amended): `Revoke` returns a non-nil error exactly when
building the HTTP request or performing the HTTP round-trip fails; whenever
the round-trip completes, it returns nil regardless of the backend-reported
response status, so a backend-reported failure is not surfaced as an
error. -/
theorem C6_revoke_error_iff (c : Config) (env : RevokeEnv) (t : Token) :
    c.Revoke env t = none ↔
      (env.newRequestErr = none ∧ ∃ r, env.doResult = Except.ok r) := by
  unfold Config.Revoke
  cases hr : env.newRequestErr with
  | some e => simp [hr]
  | none =>
    cases hd : env.doResult with
    | error e => simp [hr, hd]
    | ok r => simp [hr, hd]

/-- Claim C7: `Username` is the prefix of `Email`'s result before the
separator character, it is empty when `Email` is empty, and on the address
`alice@example.com` it is `alice`. -/
theorem C7_username_local_part (c : Config) (env : Env) (t : Token) :
    c.Username env t =
      String.mk ((c.Email env t).data.takeWhile (fun ch => ch != '@')) ∧
    (c.Email env t = "" → c.Username env t = "") ∧
    (c.Email env t = "alice@example.com" → c.Username env t = "alice") := by
  have h1 : c.Username env t =
      String.mk ((c.Email env t).data.takeWhile (fun ch => ch != '@')) := by
    unfold Config.Username
    rw [goSplit_headD]
  refine ⟨h1, fun he => ?_, fun he => ?_⟩
  · rw [h1, he]
    rfl
  · rw [h1, he]
    rfl

/-- Claim C7, witness: on a backend that reports `alice@example.com`,
`Username` computes `alice`. -/
theorem C7_username_local_part_witness :
    cfgWlOnly.Username envAlice tokOk = "alice" :=
  (C7_username_local_part cfgWlOnly envAlice tokOk).2.2 rfl

/-- Claim C8: the exchange counter is bumped exactly when the code-for-token
exchange succeeds, the validation counter exactly when `Valid` answers
`true`, and on every failing path the metrics state is returned untouched
(`Valid` also never touches the exchange counter). -/
theorem C8_metrics_on_success (c : Config) (env : Env) (eenv : ExchangeEnv)
    (t : Token) (code : String) (m : Metrics) :
    ((c.Valid env t m).fst = true →
      (c.Valid env t m).snd = { m with authValid := m.authValid + 1 }) ∧
    ((c.Valid env t m).fst = false → (c.Valid env t m).snd = m) ∧
    (c.Valid env t m).snd.authExchange = m.authExchange ∧
    (∀ tk, (c.Exchange eenv code m).fst = Except.ok tk →
      (c.Exchange eenv code m).snd = { m with authExchange := m.authExchange + 1 }) ∧
    (∀ e, (c.Exchange eenv code m).fst = Except.error e →
      (c.Exchange eenv code m).snd = m) := by
  have hv := Valid_snd_eq c env t m
  refine ⟨fun h => ?_, fun h => ?_, ?_, fun tk h => ?_, fun e h => ?_⟩
  · rw [hv, h]
    simp
  · rw [hv, h]
    simp
  · rw [hv]
    cases hf : (c.Valid env t m).fst <;> simp
  · unfold Config.Exchange at h ⊢
    cases he : eenv.result <;> simp_all
  · unfold Config.Exchange at h ⊢
    cases he : eenv.result <;> simp_all

/-- Claim C8, witness: the theorem applied at a fully successful validation,
a rejected validation, a successful exchange and a failed exchange. -/
theorem C8_metrics_on_success_witness :
    (cfgWlOnly.Valid envAllOk tokOk m0).snd = { m0 with authValid := m0.authValid + 1 } ∧
    (cfgWlOnly.Valid envNonMember tokOk m0).snd = m0 ∧
    (cfgWlOnly.Exchange exEnvOk "code" m0).snd = { m0 with authExchange := m0.authExchange + 1 } ∧
    (cfgWlOnly.Exchange exEnvErr "code" m0).snd = m0 :=
  ⟨(C8_metrics_on_success cfgWlOnly envAllOk exEnvOk tokOk "code" m0).1 (by decide),
   (C8_metrics_on_success cfgWlOnly envNonMember exEnvOk tokOk "code" m0).2.1 (by decide),
   (C8_metrics_on_success cfgWlOnly envAllOk exEnvOk tokOk "code" m0).2.2.2.1 tokOk rfl,
   (C8_metrics_on_success cfgWlOnly envAllOk exEnvErr tokOk "code" m0).2.2.2.2
     "oauth2: cannot fetch token" rfl⟩

/-- Claim C9: for every state string, the authorization URL built by
`StartSession` carries an `hd` parameter whose value is exactly the
configured domain — unconditionally, so a whitelist-only provider (empty
domain) sends an empty `hd` hint. -/
theorem C9_hd_param (c : Config) (s : String) :
    ("hd", c.domain) ∈ c.StartSession s ∧
    (∀ v, ("hd", v) ∈ c.StartSession s → v = c.domain) := by
  unfold Config.StartSession OAuthConfig.authCodeURL
  constructor
  · simp
  · intro v hv
    simp only [List.mem_append, List.mem_cons, List.not_mem_nil] at hv
    split_ifs at hv <;> simp_all

/-- Claim C9, witness: the whitelist-only provider (empty domain option)
still sends the `hd` hint, with the empty value. -/
theorem C9_hd_param_witness :
    ("hd", "") ∈ cfgWlOnly.StartSession "st" ∧ "" = cfgWlOnly.domain :=
  ⟨(C9_hd_param cfgWlOnly "st").1, (C9_hd_param cfgWlOnly "st").2 "" (by decide)⟩

/-- Claim C10: `Username` is total — splitting the email on the separator
always yields at least one chunk, so taking element zero cannot fail — and on
a non-empty email containing no separator it returns the entire email
unchanged. -/
theorem C10_username_total (c : Config) (env : Env) (t : Token) :
    goSplit '@' (c.Email env t).data ≠ [] ∧
    (c.Email env t ≠ "" → '@' ∉ (c.Email env t).data →
      c.Username env t = c.Email env t) := by
  refine ⟨goSplit_ne_nil _ _, fun _hne hno => ?_⟩
  unfold Config.Username
  rw [goSplit_headD]
  have hall : ∀ x ∈ (c.Email env t).data, (x != '@') = true := by
    intro x hx
    have hxne : x ≠ '@' := by
      rintro rfl
      exact hno hx
    simpa using hxne
  rw [takeWhile_eq_self_of_forall _ _ hall, string_mk_data]

/-- Claim C10, witness: a backend-reported email with no separator character
is returned whole by `Username`. -/
theorem C10_username_total_witness :
    cfgWlOnly.Username envNoSep tokOk = cfgWlOnly.Email envNoSep tokOk :=
  (C10_username_total cfgWlOnly envNoSep tokOk).2 (by decide) (by decide)

end Cashier
